import Mathlib

/-!
# Verification of the `udock` package (simplified Docker API)

A shallow embedding of `udock.go`.  The Docker daemon is an external
collaborator reached through the `client.Client` adapter; we model it as a
record of response functions (`Client` below).  Every operation of the
package is translated into a Lean function that returns both the Go
function's result and the list of adapter calls it issued, each call tagged
with the timeout budget (in milliseconds) of the `context.WithTimeout`
context under which the call is made.  Go `error` values are modelled by
the inductive `GoError`: the package's sentinel errors, adapter-produced
errors (which are never the package sentinels), `fmt.Errorf("%w: %s", ...)`
wrapping, and binary `errors.Join`.
-/

set_option autoImplicit false

namespace Udock

instance {ε α : Type} [DecidableEq ε] [DecidableEq α] : DecidableEq (Except ε α) := fun x y =>
  match x, y with
  | .ok a, .ok b => if h : a = b then .isTrue (by rw [h]) else .isFalse (by simp [h])
  | .error a, .error b => if h : a = b then .isTrue (by rw [h]) else .isFalse (by simp [h])
  | .ok _, .error _ => .isFalse (by simp)
  | .error _, .ok _ => .isFalse (by simp)

/-- The sentinel errors declared in the `var` block of `udock.go`. -/
inductive BaseErr where
  | ErrCreatingDockerClient
  | ErrConnectingToDocker
  | ErrListingImages
  | ErrImageNotPresent
  | ErrReadingPulledImage
  | ErrPullingImage
  | ErrCreatingContainer
  | ErrStartingContainer
  | ErrTimeout
  | ErrPortMap
deriving DecidableEq

/-- A Go `error` value as produced by the package: a sentinel,
an external (adapter- or library-produced) error carrying only a message,
a `fmt.Errorf("%w: %s", err, s)` wrap, or a two-argument `errors.Join`. -/
inductive GoError where
  | base : BaseErr → GoError
  | ext : String → GoError
  | wrapf : GoError → String → GoError
  | join : GoError → GoError → GoError
deriving DecidableEq

/-- Go `errors.Is(e, target)` for the package sentinels: unwraps through
`fmt.Errorf("%w: ...)"` wrapping and checks both children of `errors.Join`.
External errors never match a sentinel. -/
def errorIs : GoError → BaseErr → Bool
  | .base b, t => decide (b = t)
  | .ext _, _ => false
  | .wrapf e _, t => errorIs e t
  | .join a b, t => errorIs a t || errorIs b t

/-- The timeouts of `udock.go`, in milliseconds. -/
def dockerConnectTimeout : Nat := 10000

/-- Timeout for verifying that we have a given docker image (ms). -/
def dockerImageVerifyTimeout : Nat := 10000

/-- Timeout for pulling a docker image (ms). -/
def dockerPullTimeout : Nat := 60000

/-- Timeout for creating a container (ms). -/
def dockerCreateContainerTimeout : Nat := 10000

/-- Timeout for starting a container, including waiting for it to start (ms). -/
def dockerStartContainerTimeout : Nat := 10000

/-- Timeout for removing a container (ms). -/
def dockerRemoveContainerTimeout : Nat := 10000

/-- Timeout for removing an image (ms). -/
def dockerRemoveImageTimeout : Nat := 10000

/-- The interval of the ticker in `StartContainer` (ms). -/
def tickIntervalMs : Nat := 100

/-- One `nat.PortBinding` from `docker/go-connections`: a host IP and a
host port string. -/
structure PortBinding where
  HostIP : String
  HostPort : String
deriving DecidableEq

/-- `nat.PortMap`, a Go map from port token (e.g. `"80/tcp"`) to a list of
bindings, modelled as an association list in insertion order. -/
abbrev PortMap := List (String × List PortBinding)

/-- The body of an `image.ImagePull` response stream: chunk sizes followed
by either a clean EOF (`readErr = none`) or a read error.  `io.Copy`
consumes every chunk before observing the end of the stream. -/
structure PullStream where
  chunks : List Nat
  readErr : Option String
deriving DecidableEq

/-- Total number of bytes the pull stream carries. -/
def totalBytes (s : PullStream) : Nat :=
  s.chunks.sum

/-- `io.Copy(io.Discard, s)`: drains the whole stream, returning the byte
count consumed and the terminal read error, if any. -/
def ioCopyDiscard (s : PullStream) : Nat × Option GoError :=
  (s.chunks.sum, s.readErr.map GoError.ext)

/-- `strconv.ParseUint(s, 10, 16)` from the Go standard library, as used by
`nat.ParsePortRange`: base-10 digits only, non-empty, value at most 65535;
`none` models a parse error. -/
def parseUint16 (s : String) : Option Nat :=
  match s.data with
  | [] => none
  | cs =>
    if cs.all Char.isDigit then
      let n := cs.foldl (fun acc c => acc * 10 + (c.toNat - 48)) 0
      if n ≤ 65535 then some n else none
    else none

/-- `strings.Split(s, "-")` on a single-character separator. -/
def splitOnChar (sep : Char) : List Char → List (List Char)
  | [] => [[]]
  | c :: rest =>
    let r := splitOnChar sep rest
    if c = sep then [] :: r
    else
      match r with
      | [] => [[c]]
      | g :: gs => (c :: g) :: gs

/-- `nat.ParsePortRange` from `docker/go-connections/nat`: an empty string
is an error; without a dash the string is parsed as a single port; with a
dash the first two dash-separated pieces are parsed and the range must be
ascending. -/
def ParsePortRange (ports : String) : Option (Nat × Nat) :=
  match ports.data with
  | [] => none
  | cs =>
    if cs.contains '-' then
      match splitOnChar '-' cs with
      | p1 :: p2 :: _ =>
        match parseUint16 ⟨p1⟩, parseUint16 ⟨p2⟩ with
        | some s, some e => if e < s then none else some (s, e)
        | _, _ => none
      | _ => none
    else
      (parseUint16 ports).map fun n => (n, n)

/-- `nat.ParsePortRangeToInt`: an empty raw port yields the range (0, 0)
without error, otherwise defers to `ParsePortRange`. -/
def ParsePortRangeToInt (rawPort : String) : Option (Nat × Nat) :=
  match rawPort.data with
  | [] => some (0, 0)
  | _ => ParsePortRange rawPort

/-- `nat.NewPort(proto, port)`: parses the port (range) and renders the
protocol-qualified token, e.g. `"80/tcp"`.  The `Except` error is the
underlying parse error (an external, non-sentinel error in Go). -/
def NewPort (proto : String) (port : String) : Except String String :=
  match ParsePortRangeToInt port with
  | none => .error ("invalid port specification: " ++ port)
  | some (s, e) =>
    if s = e then .ok (toString s ++ "/" ++ proto)
    else .ok (toString s ++ "-" ++ toString e ++ "/" ++ proto)

/-- The protocol-qualified token of a container-port string, when
`nat.NewPort("tcp", ·)` succeeds (defaults to `""` on a parse error; only
used under a validity hypothesis). -/
def tokenOf (cPort : String) : String :=
  match NewPort "tcp" cPort with
  | .ok tok => tok
  | .error _ => ""

/-- Assignment `portmap[containerPort] = bindings` on the Go map modelled
as an association list: replaces the binding list of an existing key,
otherwise appends the new entry. -/
def insertPM : PortMap → String → List PortBinding → PortMap
  | [], k, v => [(k, v)]
  | (k₀, v₀) :: rest, k, v =>
    if k₀ = k then (k, v) :: rest
    else (k₀, v₀) :: insertPM rest k v

/-- One call made against the Docker client adapter, tagged with the
timeout budget (ms) of the context under which the call is issued. -/
inductive AdapterCall where
  | ping (timeoutMs : Nat)
  | listImages (ref : String) (timeoutMs : Nat)
  | pullImage (ref : String) (timeoutMs : Nat)
  | createContainer (imageRef : String) (name : String) (portmap : PortMap) (timeoutMs : Nat)
  | startContainer (id : String) (timeoutMs : Nat)
  | inspectContainer (id : String) (timeoutMs : Nat)
  | removeContainer (id : String) (removeVolumes : Bool) (force : Bool) (timeoutMs : Nat)
  | removeImage (ref : String) (timeoutMs : Nat)
deriving DecidableEq

/-- The Docker client adapter (`client.Client`), modelled as the responses
it gives to each call the package can make.  Errors produced by the adapter
are opaque strings (they are never the package's sentinel errors).
`containerInspect` is indexed by the poll tick at which the inspect is
issued, so a container whose state evolves over time can be modelled;
the `Bool` it returns is the `State.Running` field of the inspect result. -/
structure Client where
  ping : Except String Unit
  imageList : String → Except String (List String)
  imagePull : String → Except String PullStream
  containerCreate : String → String → PortMap → Except String String
  containerStart : String → Except String Unit
  containerInspect : Nat → String → Except String Bool
  containerRemove : String → Except String Unit
  imageRemove : String → Except String Unit

/-- `CreateClient`: builds the client from the environment (the outcome of
`client.NewClientWithOpts` is the `mk` argument) and pings it under the
connect timeout.  Construction failure yields `ErrCreatingDockerClient`
before any adapter call; ping failure yields `ErrConnectingToDocker`. -/
def CreateClient (mk : Except String Client) : Except GoError Client × List AdapterCall :=
  match mk with
  | .error e => (.error (.join (.base .ErrCreatingDockerClient) (.ext e)), [])
  | .ok cl =>
    match cl.ping with
    | .error e => (.error (.join (.base .ErrConnectingToDocker) (.ext e)),
        [.ping dockerConnectTimeout])
    | .ok _ => (.ok cl, [.ping dockerConnectTimeout])

/-- `VerifyHaveImage`: lists images filtered by the reference under the
verify timeout.  A listing failure is joined with `ErrListingImages`;
an empty listing yields `ErrImageNotPresent` wrapping the reference;
a non-empty listing is success. -/
def VerifyHaveImage (c : Client) (dockerImage : String) :
    Option GoError × List AdapterCall :=
  match c.imageList dockerImage with
  | .error e => (some (.join (.base .ErrListingImages) (.ext e)),
      [.listImages dockerImage dockerImageVerifyTimeout])
  | .ok images =>
    if images.length > 0 then
      (none, [.listImages dockerImage dockerImageVerifyTimeout])
    else
      (some (.wrapf (.base .ErrImageNotPresent) dockerImage),
        [.listImages dockerImage dockerImageVerifyTimeout])

/-- `PullImage`: first calls `VerifyHaveImage`; on a `nil` verify error it
returns `nil` without pulling.  On ANY non-nil verify error (present-check
failure or listing failure alike) it pulls under the pull timeout; a pull
request failure is wrapped with `ErrPullingImage` and the reference, and a
failure while draining the response stream is joined with
`ErrReadingPulledImage`. -/
def PullImage (c : Client) (dockerImage : String) :
    Option GoError × List AdapterCall :=
  let v := VerifyHaveImage c dockerImage
  match v.fst with
  | none => (none, v.snd)
  | some _ =>
    match c.imagePull dockerImage with
    | .error e =>
      (some (.join (.wrapf (.base .ErrPullingImage) dockerImage) (.ext e)),
        v.snd ++ [.pullImage dockerImage dockerPullTimeout])
    | .ok stream =>
      match (ioCopyDiscard stream).snd with
      | some e =>
        (some (.join (.base .ErrReadingPulledImage) e),
          v.snd ++ [.pullImage dockerImage dockerPullTimeout])
      | none =>
        (none, v.snd ++ [.pullImage dockerImage dockerPullTimeout])

/-- The port-translation loop at the top of `CreateContainer`: for each
`hPort → cPort` entry of the ports map (iteration order is the list
order), parse the container port with `nat.NewPort("tcp", cPort)`; a parse
failure aborts the whole translation joined with `ErrPortMap`; otherwise
assign a single-element binding list with the all-interfaces host IP and
the entry's host port. -/
def buildPortMap : List (String × String) → PortMap → Except GoError PortMap
  | [], acc => .ok acc
  | (hPort, cPort) :: rest, acc =>
    match NewPort "tcp" cPort with
    | .error e => .error (.join (.base .ErrPortMap) (.ext e))
    | .ok containerPort =>
      buildPortMap rest (insertPM acc containerPort [⟨"0.0.0.0", hPort⟩])

/-- `CreateContainer`: translates the ports map (aborting with the port-map
error before any remote call on a parse failure), then issues the create
call under the create timeout; a remote failure is joined with
`ErrCreatingContainer` and yields an empty container ID; success returns
the container ID the adapter produced. -/
def CreateContainer (c : Client) (dockerImage : String) (containerName : String)
    (ports : List (String × String)) :
    (String × Option GoError) × List AdapterCall :=
  match buildPortMap ports [] with
  | .error e => (("", some e), [])
  | .ok portmap =>
    match c.containerCreate dockerImage containerName portmap with
    | .error e =>
      (("", some (.join (.base .ErrCreatingContainer) (.ext e))),
        [.createContainer dockerImage containerName portmap dockerCreateContainerTimeout])
    | .ok id =>
      ((id, none),
        [.createContainer dockerImage containerName portmap dockerCreateContainerTimeout])

/-- The number of ticker ticks that fire strictly before the start
deadline: ticks at 100ms, 200ms, ..., 9900ms. -/
def startMaxTicks : Nat :=
  dockerStartContainerTimeout / tickIntervalMs - 1

/-- The poll loop of `StartContainer`: at each tick inspect the container;
an inspect failure is terminal (`ErrStartingContainer` wrapping the
container ID, joined with the cause), a running state is success, a
non-running state waits for the next tick; when the context deadline
elapses (`fuel` many ticks fit before it), return `ErrTimeout`.  `tick`
numbers the inspect calls; each one runs under the single context of the
enclosing `StartContainer`, whose budget is the start timeout. -/
def pollLoop (inspect : Nat → Except String Bool) (containerID : String) :
    Nat → Nat → Option GoError × List AdapterCall
  | _, 0 => (some (.base .ErrTimeout), [])
  | tick, fuel + 1 =>
    match inspect tick with
    | .error e =>
      (some (.join (.wrapf (.base .ErrStartingContainer) containerID) (.ext e)),
        [.inspectContainer containerID dockerStartContainerTimeout])
    | .ok true =>
      (none, [.inspectContainer containerID dockerStartContainerTimeout])
    | .ok false =>
      let r := pollLoop inspect containerID (tick + 1) fuel
      (r.fst, .inspectContainer containerID dockerStartContainerTimeout :: r.snd)

/-- `StartContainer`: issues the start call under the start timeout (a
failure is terminal, wrapped with `ErrStartingContainer` and the container
ID), then polls the container state on the 100ms ticker until it reports
running or the 10s deadline elapses. -/
def StartContainer (c : Client) (containerID : String) :
    Option GoError × List AdapterCall :=
  match c.containerStart containerID with
  | .error e =>
    (some (.join (.wrapf (.base .ErrStartingContainer) containerID) (.ext e)),
      [.startContainer containerID dockerStartContainerTimeout])
  | .ok _ =>
    let p := pollLoop (fun k => c.containerInspect k containerID) containerID 0 startMaxTicks
    (p.fst, .startContainer containerID dockerStartContainerTimeout :: p.snd)

/-- `RemoveContainer`: one remove call under the remove timeout, with
volume removal and force enabled; the adapter's error passes through
un-reclassified. -/
def RemoveContainer (c : Client) (containerID : String) :
    Option GoError × List AdapterCall :=
  (match c.containerRemove containerID with
   | .error e => some (.ext e)
   | .ok _ => none,
   [.removeContainer containerID true true dockerRemoveContainerTimeout])

/-- `RemoveImage`: one image-remove call under its timeout; the adapter's
error passes through unwrapped. -/
def RemoveImage (c : Client) (dockerImage : String) :
    Option GoError × List AdapterCall :=
  (match c.imageRemove dockerImage with
   | .error e => some (.ext e)
   | .ok _ => none,
   [.removeImage dockerImage dockerRemoveImageTimeout])

/-- An adapter whose image listing fails (transport error) and whose pull
succeeds with an empty, cleanly terminated stream. -/
def listingErrClient : Client where
  ping := .ok ()
  imageList := fun _ => .error "boom"
  imagePull := fun _ => .ok ⟨[], none⟩
  containerCreate := fun _ _ _ => .ok "cid"
  containerStart := fun _ => .ok ()
  containerInspect := fun _ _ => .ok false
  containerRemove := fun _ => .ok ()
  imageRemove := fun _ => .ok ()

/-- An adapter that reports one matching image for every reference. -/
def presentClient : Client where
  ping := .ok ()
  imageList := fun _ => .ok ["sha256:0"]
  imagePull := fun _ => .ok ⟨[], none⟩
  containerCreate := fun _ _ _ => .ok "cid"
  containerStart := fun _ => .ok ()
  containerInspect := fun _ _ => .ok true
  containerRemove := fun _ => .ok ()
  imageRemove := fun _ => .ok ()

/-- An adapter with no matching images whose pull request fails. -/
def absentPullFailClient : Client where
  ping := .ok ()
  imageList := fun _ => .ok []
  imagePull := fun _ => .error "pullfail"
  containerCreate := fun _ _ _ => .ok "cid"
  containerStart := fun _ => .ok ()
  containerInspect := fun _ _ => .ok false
  containerRemove := fun _ => .ok ()
  imageRemove := fun _ => .ok ()

/-- An adapter with no matching images whose pull stream fails mid-drain. -/
def absentDrainFailClient : Client where
  ping := .ok ()
  imageList := fun _ => .ok []
  imagePull := fun _ => .ok ⟨[3, 4], some "readfail"⟩
  containerCreate := fun _ _ _ => .ok "cid"
  containerStart := fun _ => .ok ()
  containerInspect := fun _ _ => .ok false
  containerRemove := fun _ => .ok ()
  imageRemove := fun _ => .ok ()

/-- An adapter with no matching images whose pull succeeds with a cleanly
terminated five-byte stream. -/
def absentPullOkClient : Client where
  ping := .ok ()
  imageList := fun _ => .ok []
  imagePull := fun _ => .ok ⟨[5], none⟩
  containerCreate := fun _ _ _ => .ok "cid"
  containerStart := fun _ => .ok ()
  containerInspect := fun _ _ => .ok false
  containerRemove := fun _ => .ok ()
  imageRemove := fun _ => .ok ()

/-- An adapter whose containers start without error but never reach the
running state. -/
def neverRunningClient : Client where
  ping := .ok ()
  imageList := fun _ => .ok ["sha256:0"]
  imagePull := fun _ => .ok ⟨[], none⟩
  containerCreate := fun _ _ _ => .ok "cid"
  containerStart := fun _ => .ok ()
  containerInspect := fun _ _ => .ok false
  containerRemove := fun _ => .ok ()
  imageRemove := fun _ => .ok ()

/-- An adapter whose containers start without error but whose very first
state inspection fails. -/
def inspectFailClient : Client where
  ping := .ok ()
  imageList := fun _ => .ok ["sha256:0"]
  imagePull := fun _ => .ok ⟨[], none⟩
  containerCreate := fun _ _ _ => .ok "cid"
  containerStart := fun _ => .ok ()
  containerInspect := fun _ _ => .error "inspectfail"
  containerRemove := fun _ => .ok ()
  imageRemove := fun _ => .ok ()

/-- A ports map in which two distinct host ports are mapped to the same
container port `"80"`. -/
def dupPorts : List (String × String) :=
  [("1", "80"), ("2", "80")]

theorem verifyHaveImage_error {c : Client} {r e : String}
    (hc : c.imageList r = .error e) :
    VerifyHaveImage c r = (some (.join (.base .ErrListingImages) (.ext e)),
      [.listImages r dockerImageVerifyTimeout]) := by
  simp [VerifyHaveImage, hc]

theorem verifyHaveImage_ok_pos {c : Client} {r : String} {imgs : List String}
    (hc : c.imageList r = .ok imgs) (hl : 0 < imgs.length) :
    VerifyHaveImage c r = (none, [.listImages r dockerImageVerifyTimeout]) := by
  simp [VerifyHaveImage, hc, hl]

theorem verifyHaveImage_ok_zero {c : Client} {r : String} {imgs : List String}
    (hc : c.imageList r = .ok imgs) (hl : imgs.length = 0) :
    VerifyHaveImage c r = (some (.wrapf (.base .ErrImageNotPresent) r),
      [.listImages r dockerImageVerifyTimeout]) := by
  simp [VerifyHaveImage, hc, hl]

theorem verifyHaveImage_trace (c : Client) (r : String) :
    (VerifyHaveImage c r).snd = [.listImages r dockerImageVerifyTimeout] := by
  unfold VerifyHaveImage
  cases c.imageList r with
  | error e => simp
  | ok imgs =>
    by_cases hl : 0 < imgs.length <;> simp [hl]

theorem pullImage_of_verify_ok {c : Client} {r : String}
    (h : (VerifyHaveImage c r).fst = none) :
    PullImage c r = (none, (VerifyHaveImage c r).snd) := by
  simp [PullImage, h]

theorem pullImage_of_verify_err_pull_err {c : Client} {r : String} {v : GoError}
    {e : String} (hv : (VerifyHaveImage c r).fst = some v)
    (hp : c.imagePull r = .error e) :
    PullImage c r = (some (.join (.wrapf (.base .ErrPullingImage) r) (.ext e)),
      (VerifyHaveImage c r).snd ++ [.pullImage r dockerPullTimeout]) := by
  simp [PullImage, hv, hp]

theorem pullImage_of_verify_err_drain_err {c : Client} {r : String} {v : GoError}
    {s : PullStream} {e : String} (hv : (VerifyHaveImage c r).fst = some v)
    (hp : c.imagePull r = .ok s) (hr : s.readErr = some e) :
    PullImage c r = (some (.join (.base .ErrReadingPulledImage) (.ext e)),
      (VerifyHaveImage c r).snd ++ [.pullImage r dockerPullTimeout]) := by
  simp [PullImage, hv, hp, ioCopyDiscard, hr]

theorem pullImage_of_verify_err_pull_clean {c : Client} {r : String} {v : GoError}
    {s : PullStream} (hv : (VerifyHaveImage c r).fst = some v)
    (hp : c.imagePull r = .ok s) (hr : s.readErr = none) :
    PullImage c r = (none,
      (VerifyHaveImage c r).snd ++ [.pullImage r dockerPullTimeout]) := by
  simp [PullImage, hv, hp, ioCopyDiscard, hr]

/-- C2: `VerifyHaveImage` succeeds iff the adapter listing succeeds with at
least one match; a successful listing with zero matches yields an error
matching `ErrImageNotPresent` wrapping the requested reference; a failed
listing yields an error matching `ErrListingImages` and not matching
`ErrImageNotPresent`, so the two failure kinds are distinguishable. -/
theorem verifyHaveImage_distinguishes (c : Client) (r : String) :
    ((VerifyHaveImage c r).fst = none ↔
      ∃ imgs, c.imageList r = .ok imgs ∧ 0 < imgs.length) ∧
    (∀ imgs, c.imageList r = .ok imgs → imgs.length = 0 →
      (VerifyHaveImage c r).fst = some (.wrapf (.base .ErrImageNotPresent) r) ∧
      errorIs (.wrapf (.base .ErrImageNotPresent) r) .ErrImageNotPresent = true) ∧
    (∀ e, c.imageList r = .error e →
      (VerifyHaveImage c r).fst = some (.join (.base .ErrListingImages) (.ext e)) ∧
      errorIs (.join (.base .ErrListingImages) (.ext e)) .ErrListingImages = true ∧
      errorIs (.join (.base .ErrListingImages) (.ext e)) .ErrImageNotPresent = false) := by
  refine ⟨⟨?_, ?_⟩, ?_, ?_⟩
  · intro h
    cases hc : c.imageList r with
    | error e => rw [verifyHaveImage_error hc] at h; simp at h
    | ok imgs =>
      rcases Nat.eq_zero_or_pos imgs.length with hl | hl
      · rw [verifyHaveImage_ok_zero hc hl] at h; simp at h
      · exact ⟨imgs, rfl, hl⟩
  · rintro ⟨imgs, hc, hl⟩
    rw [verifyHaveImage_ok_pos hc hl]
  · intro imgs hc hl
    exact ⟨by rw [verifyHaveImage_ok_zero hc hl], by simp [errorIs]⟩
  · intro e hc
    exact ⟨by rw [verifyHaveImage_error hc], by simp [errorIs], by simp [errorIs]⟩

theorem verifyHaveImage_distinguishes_witness :
    (VerifyHaveImage presentClient "img").fst = none ∧
    (VerifyHaveImage absentPullOkClient "img").fst =
      some (.wrapf (.base .ErrImageNotPresent) "img") ∧
    (VerifyHaveImage listingErrClient "img").fst =
      some (.join (.base .ErrListingImages) (.ext "boom")) :=
  ⟨(verifyHaveImage_distinguishes presentClient "img").1.mpr
      ⟨["sha256:0"], rfl, by decide⟩,
   ((verifyHaveImage_distinguishes absentPullOkClient "img").2.1 [] rfl rfl).1,
   ((verifyHaveImage_distinguishes listingErrClient "img").2.2 "boom" rfl).1⟩

/-- C7: when the presence check reports the image present
(`VerifyHaveImage` returns `nil`), `PullImage` returns success and issues
no pull call at all: its adapter trace is exactly the single image-listing
call of the presence check. -/
theorem pullImage_short_circuit (c : Client) (r : String)
    (h : (VerifyHaveImage c r).fst = none) :
    (PullImage c r).fst = none ∧
    (PullImage c r).snd = [.listImages r dockerImageVerifyTimeout] ∧
    ∀ ref tmo, AdapterCall.pullImage ref tmo ∉ (PullImage c r).snd := by
  have ht := verifyHaveImage_trace c r
  rw [pullImage_of_verify_ok h]
  refine ⟨rfl, ht, ?_⟩
  intro ref tmo hmem
  rw [ht] at hmem
  simp at hmem

theorem pullImage_short_circuit_witness :
    (PullImage presentClient "img").fst = none ∧
    (PullImage presentClient "img").snd =
      [.listImages "img" dockerImageVerifyTimeout] ∧
    ∀ ref tmo, AdapterCall.pullImage ref tmo ∉ (PullImage presentClient "img").snd :=
  pullImage_short_circuit presentClient "img" (by decide)

/-- C1 counterexample: an adapter whose image listing fails with a
transport error.  `VerifyHaveImage` reports the listing failure, yet
`PullImage` goes on to issue a pull call and, the pull having succeeded,
returns `nil` instead of propagating the listing error. -/
theorem pullImage_listing_error_cex :
    (VerifyHaveImage listingErrClient "img").fst =
      some (.join (.base .ErrListingImages) (.ext "boom")) ∧
    errorIs (.join (.base .ErrListingImages) (.ext "boom")) .ErrListingImages = true ∧
    AdapterCall.pullImage "img" dockerPullTimeout ∈ (PullImage listingErrClient "img").snd ∧
    (PullImage listingErrClient "img").fst = none := by decide

/-- C1 as amended: when the presence check fails with a listing error,
`PullImage` treats it like any other verify failure — it proceeds to issue
a pull request, and if the pull succeeds and its stream drains cleanly,
`PullImage` returns `nil`, dropping the listing error. -/
theorem pullImage_listing_error_still_pulls (c : Client) (r e : String)
    (h : c.imageList r = .error e) :
    AdapterCall.pullImage r dockerPullTimeout ∈ (PullImage c r).snd ∧
    ∀ s, c.imagePull r = .ok s → s.readErr = none → (PullImage c r).fst = none := by
  have hv : (VerifyHaveImage c r).fst =
      some (.join (.base .ErrListingImages) (.ext e)) := by
    rw [verifyHaveImage_error h]
  constructor
  · cases hp : c.imagePull r with
    | error e₁ => rw [pullImage_of_verify_err_pull_err hv hp]; simp
    | ok s =>
      cases hr : s.readErr with
      | none => rw [pullImage_of_verify_err_pull_clean hv hp hr]; simp
      | some e₁ => rw [pullImage_of_verify_err_drain_err hv hp hr]; simp
  · intro s hp hr
    rw [pullImage_of_verify_err_pull_clean hv hp hr]

theorem pullImage_listing_error_still_pulls_witness :
    AdapterCall.pullImage "img" dockerPullTimeout ∈
      (PullImage listingErrClient "img").snd ∧
    (PullImage listingErrClient "img").fst = none :=
  ⟨(pullImage_listing_error_still_pulls listingErrClient "img" "boom" rfl).1,
   (pullImage_listing_error_still_pulls listingErrClient "img" "boom" rfl).2
     ⟨[], none⟩ rfl rfl⟩

/-- C8: when `PullImage` proceeds to a pull, a failing pull request yields
an error matching `ErrPullingImage` wrapping the image reference, a
failure while draining the stream yields an error matching
`ErrReadingPulledImage` and not `ErrPullingImage`, and success is reported
only when the whole stream was drained to a clean EOF, all of its bytes
consumed. -/
theorem pullImage_drain_and_error_kinds (c : Client) (r : String)
    (hv : (VerifyHaveImage c r).fst ≠ none) :
    (∀ e, c.imagePull r = .error e →
      (PullImage c r).fst = some (.join (.wrapf (.base .ErrPullingImage) r) (.ext e)) ∧
      errorIs (.join (.wrapf (.base .ErrPullingImage) r) (.ext e)) .ErrPullingImage = true) ∧
    (∀ s e, c.imagePull r = .ok s → s.readErr = some e →
      (PullImage c r).fst = some (.join (.base .ErrReadingPulledImage) (.ext e)) ∧
      errorIs (.join (.base .ErrReadingPulledImage) (.ext e)) .ErrReadingPulledImage = true ∧
      errorIs (.join (.base .ErrReadingPulledImage) (.ext e)) .ErrPullingImage = false) ∧
    (∀ s, c.imagePull r = .ok s →
      ((PullImage c r).fst = none ↔ s.readErr = none) ∧
      (ioCopyDiscard s).fst = totalBytes s) := by
  obtain ⟨v, hv⟩ : ∃ v, (VerifyHaveImage c r).fst = some v := by
    cases h : (VerifyHaveImage c r).fst with
    | none => exact absurd h hv
    | some v => exact ⟨v, rfl⟩
  refine ⟨?_, ?_, ?_⟩
  · intro e hp
    rw [pullImage_of_verify_err_pull_err hv hp]
    exact ⟨rfl, by simp [errorIs]⟩
  · intro s e hp hr
    rw [pullImage_of_verify_err_drain_err hv hp hr]
    exact ⟨rfl, by simp [errorIs], by simp [errorIs]⟩
  · intro s hp
    refine ⟨⟨?_, ?_⟩, rfl⟩
    · intro h
      cases hr : s.readErr with
      | none => rfl
      | some e => rw [pullImage_of_verify_err_drain_err hv hp hr] at h; simp at h
    · intro hr
      rw [pullImage_of_verify_err_pull_clean hv hp hr]

theorem pullImage_drain_and_error_kinds_witness :
    (PullImage absentPullFailClient "img").fst =
      some (.join (.wrapf (.base .ErrPullingImage) "img") (.ext "pullfail")) ∧
    (PullImage absentDrainFailClient "img").fst =
      some (.join (.base .ErrReadingPulledImage) (.ext "readfail")) ∧
    (PullImage absentPullOkClient "img").fst = none ∧
    (ioCopyDiscard ⟨[5], none⟩).fst = totalBytes ⟨[5], none⟩ :=
  ⟨((pullImage_drain_and_error_kinds absentPullFailClient "img" (by decide)).1
      "pullfail" rfl).1,
   ((pullImage_drain_and_error_kinds absentDrainFailClient "img" (by decide)).2.1
      ⟨[3, 4], some "readfail"⟩ "readfail" rfl rfl).1,
   (((pullImage_drain_and_error_kinds absentPullOkClient "img" (by decide)).2.2
      ⟨[5], none⟩ rfl).1).mpr rfl,
   ((pullImage_drain_and_error_kinds absentPullOkClient "img" (by decide)).2.2
      ⟨[5], none⟩ rfl).2⟩

theorem pollLoop_never_running (insp : Nat → Except String Bool) (cid : String)
    (h : ∀ k, insp k = .ok false) :
    ∀ (fuel tick : Nat), pollLoop insp cid tick fuel =
      (some (.base .ErrTimeout),
        List.replicate fuel (.inspectContainer cid dockerStartContainerTimeout)) := by
  intro fuel
  induction fuel with
  | zero => intro tick; rfl
  | succ n ih =>
    intro tick
    simp [pollLoop, h tick, ih (tick + 1), List.replicate_succ]

theorem pollLoop_inspect_failure (insp : Nat → Except String Bool) (cid : String) :
    ∀ (j tick fuel : Nat) (e : String), j < fuel →
    (∀ i, i < j → insp (tick + i) = .ok false) →
    insp (tick + j) = .error e →
    pollLoop insp cid tick fuel =
      (some (.join (.wrapf (.base .ErrStartingContainer) cid) (.ext e)),
        List.replicate (j + 1) (.inspectContainer cid dockerStartContainerTimeout)) := by
  intro j
  induction j with
  | zero =>
    intro tick fuel e hf _ hfail
    match fuel, hf with
    | fuel + 1, _ =>
      rw [Nat.add_zero] at hfail
      simp [pollLoop, hfail, List.replicate_succ]
  | succ n ih =>
    intro tick fuel e hf hbefore hfail
    match fuel, hf with
    | fuel + 1, hf =>
      have h0 : insp tick = .ok false := by
        have := hbefore 0 (Nat.succ_pos n)
        rwa [Nat.add_zero] at this
      have hb : ∀ i, i < n → insp (tick + 1 + i) = .ok false := by
        intro i hi
        have : tick + 1 + i = tick + (i + 1) := by omega
        rw [this]
        exact hbefore (i + 1) (by omega)
      have hfail' : insp (tick + 1 + n) = .error e := by
        have : tick + 1 + n = tick + (n + 1) := by omega
        rw [this]
        exact hfail
      simp [pollLoop, h0, ih (tick + 1) fuel e (by omega) hb hfail',
        List.replicate_succ]

theorem pollLoop_trace_replicate (insp : Nat → Except String Bool) (cid : String) :
    ∀ (fuel tick : Nat), ∃ m, (pollLoop insp cid tick fuel).snd =
      List.replicate m (.inspectContainer cid dockerStartContainerTimeout) := by
  intro fuel
  induction fuel with
  | zero => intro tick; exact ⟨0, rfl⟩
  | succ n ih =>
    intro tick
    cases h : insp tick with
    | error e => exact ⟨1, by simp [pollLoop, h]⟩
    | ok b =>
      cases b with
      | true => exact ⟨1, by simp [pollLoop, h]⟩
      | false =>
        obtain ⟨m, hm⟩ := ih (tick + 1)
        exact ⟨m + 1, by simp [pollLoop, h, hm, List.replicate_succ]⟩

/-- C3: a successfully issued start whose container state never reports
running makes `StartContainer` poll on the fixed 100ms ticker for every
tick that fits inside the 10-second start deadline and then return the
generic timeout error `ErrTimeout`. -/
theorem startContainer_timeout (c : Client) (cid : String)
    (hs : c.containerStart cid = .ok ())
    (hI : ∀ k, c.containerInspect k cid = .ok false) :
    (StartContainer c cid).fst = some (.base .ErrTimeout) ∧
    tickIntervalMs = 100 ∧ dockerStartContainerTimeout = 10000 ∧
    (StartContainer c cid).snd =
      .startContainer cid dockerStartContainerTimeout ::
        List.replicate startMaxTicks
          (.inspectContainer cid dockerStartContainerTimeout) := by
  have hp := pollLoop_never_running (fun k => c.containerInspect k cid) cid hI
    startMaxTicks 0
  refine ⟨?_, rfl, rfl, ?_⟩ <;> simp [StartContainer, hs, hp]

theorem startContainer_timeout_witness :
    (StartContainer neverRunningClient "c0").fst = some (.base .ErrTimeout) ∧
    tickIntervalMs = 100 ∧ dockerStartContainerTimeout = 10000 ∧
    (StartContainer neverRunningClient "c0").snd =
      .startContainer "c0" dockerStartContainerTimeout ::
        List.replicate startMaxTicks
          (.inspectContainer "c0" dockerStartContainerTimeout) :=
  startContainer_timeout neverRunningClient "c0" rfl (fun _ => rfl)

/-- C4: if an inspect call during the poll loop fails (after `j` earlier
ticks that saw a non-running state), `StartContainer` returns immediately
with an error matching `ErrStartingContainer` that wraps the container ID
and joins the inspect cause; no further inspect call is issued — the trace
holds exactly the `j + 1` inspects up to and including the failing one. -/
theorem startContainer_inspect_failure (c : Client) (cid : String) (j : Nat)
    (e : String)
    (hs : c.containerStart cid = .ok ())
    (hj : j < startMaxTicks)
    (hbefore : ∀ i, i < j → c.containerInspect i cid = .ok false)
    (hfail : c.containerInspect j cid = .error e) :
    (StartContainer c cid).fst =
      some (.join (.wrapf (.base .ErrStartingContainer) cid) (.ext e)) ∧
    errorIs (.join (.wrapf (.base .ErrStartingContainer) cid) (.ext e))
      .ErrStartingContainer = true ∧
    (StartContainer c cid).snd =
      .startContainer cid dockerStartContainerTimeout ::
        List.replicate (j + 1)
          (.inspectContainer cid dockerStartContainerTimeout) := by
  have hb : ∀ i, i < j → c.containerInspect (0 + i) cid = .ok false := by
    intro i hi
    rw [Nat.zero_add]
    exact hbefore i hi
  have hf : c.containerInspect (0 + j) cid = .error e := by
    rw [Nat.zero_add]; exact hfail
  have hp := pollLoop_inspect_failure (fun k => c.containerInspect k cid) cid
    j 0 startMaxTicks e hj hb hf
  refine ⟨?_, by simp [errorIs], ?_⟩ <;> simp [StartContainer, hs, hp]

theorem startContainer_inspect_failure_witness :
    (StartContainer inspectFailClient "c0").fst =
      some (.join (.wrapf (.base .ErrStartingContainer) "c0") (.ext "inspectfail")) ∧
    errorIs (.join (.wrapf (.base .ErrStartingContainer) "c0") (.ext "inspectfail"))
      .ErrStartingContainer = true ∧
    (StartContainer inspectFailClient "c0").snd =
      .startContainer "c0" dockerStartContainerTimeout ::
        List.replicate 1 (.inspectContainer "c0" dockerStartContainerTimeout) :=
  startContainer_inspect_failure inspectFailClient "c0" 0 "inspectfail" rfl
    (by decide) (fun i hi => absurd hi (Nat.not_lt_zero i)) rfl

theorem insertPM_mem_key (m : PortMap) (k : String) (v : List PortBinding)
    (k₁ : String) :
    k₁ ∈ (insertPM m k v).map Prod.fst ↔ k₁ = k ∨ k₁ ∈ m.map Prod.fst := by
  induction m with
  | nil => simp [insertPM]
  | cons p rest ih =>
    obtain ⟨k₀, v₀⟩ := p
    by_cases hk : k₀ = k <;> simp [insertPM, hk, ih]
    tauto

theorem insertPM_keys_nodup {m : PortMap} {k : String} {v : List PortBinding}
    (h : (m.map Prod.fst).Nodup) : ((insertPM m k v).map Prod.fst).Nodup := by
  induction m with
  | nil => simp [insertPM]
  | cons p rest ih =>
    obtain ⟨k₀, v₀⟩ := p
    simp only [List.map_cons, List.nodup_cons] at h
    by_cases hk : k₀ = k
    · subst hk
      simpa [insertPM] using h
    · simp only [insertPM, if_neg hk, List.map_cons, List.nodup_cons]
      refine ⟨?_, ih h.2⟩
      rw [insertPM_mem_key]
      rintro (rfl | hmem)
      · exact hk rfl
      · exact h.1 hmem

theorem insertPM_values {m : PortMap} {k : String} {v : List PortBinding}
    (h : ∀ kv ∈ m, kv.2.length = 1) (hv : v.length = 1) :
    ∀ kv ∈ insertPM m k v, kv.2.length = 1 := by
  induction m with
  | nil =>
    intro kv hkv
    simp [insertPM] at hkv
    subst hkv
    exact hv
  | cons p rest ih =>
    obtain ⟨k₀, v₀⟩ := p
    intro kv hkv
    by_cases hk : k₀ = k
    · simp only [insertPM, if_pos hk] at hkv
      rcases List.mem_cons.mp hkv with rfl | hmem
      · exact hv
      · exact h kv (List.mem_cons_of_mem _ hmem)
    · simp only [insertPM, if_neg hk] at hkv
      rcases List.mem_cons.mp hkv with rfl | hmem
      · exact h (k₀, v₀) (List.mem_cons_self _ _)
      · exact ih (fun q hq => h q (List.mem_cons_of_mem _ hq)) kv hmem

theorem insertPM_of_not_mem {m : PortMap} {k : String} {v : List PortBinding}
    (h : k ∉ m.map Prod.fst) : insertPM m k v = m ++ [(k, v)] := by
  induction m with
  | nil => rfl
  | cons p rest ih =>
    obtain ⟨k₀, v₀⟩ := p
    simp only [List.map_cons, List.mem_cons] at h
    push_neg at h
    simp [insertPM, Ne.symm h.1, ih h.2]

theorem buildPortMap_error_of_invalid :
    ∀ (ports : List (String × String)) (acc : PortMap),
    (∃ p ∈ ports, (NewPort "tcp" p.2).isOk = false) →
    ∃ e, buildPortMap ports acc = .error (.join (.base .ErrPortMap) (.ext e)) := by
  intro ports
  induction ports with
  | nil => intro acc h; simp at h
  | cons p rest ih =>
    intro acc h
    obtain ⟨hp, cp⟩ := p
    cases hn : NewPort "tcp" cp with
    | error e => exact ⟨e, by simp [buildPortMap, hn]⟩
    | ok tok =>
      obtain ⟨q, hq, hbad⟩ := h
      rcases List.mem_cons.mp hq with rfl | hq₁
      · rw [hn] at hbad
        simp [Except.isOk, Except.toBool] at hbad
      · simpa [buildPortMap, hn] using ih _ ⟨q, hq₁, hbad⟩

theorem newPort_ok_of_isOk {cp : String} (h : (NewPort "tcp" cp).isOk = true) :
    NewPort "tcp" cp = .ok (tokenOf cp) := by
  cases hn : NewPort "tcp" cp with
  | error e => rw [hn] at h; simp [Except.isOk, Except.toBool] at h
  | ok tok => simp [tokenOf, hn]

theorem buildPortMap_fresh :
    ∀ (ports : List (String × String)) (acc : PortMap),
    (∀ p ∈ ports, (NewPort "tcp" p.2).isOk = true) →
    (ports.map fun p => tokenOf p.2).Nodup →
    (∀ p ∈ ports, tokenOf p.2 ∉ acc.map Prod.fst) →
    buildPortMap ports acc =
      .ok (acc ++ ports.map fun p => (tokenOf p.2, [PortBinding.mk "0.0.0.0" p.1])) := by
  intro ports
  induction ports with
  | nil => intro acc _ _ _; simp [buildPortMap]
  | cons p rest ih =>
    intro acc hv hn hfresh
    obtain ⟨hp, cp⟩ := p
    have htok := newPort_ok_of_isOk (hv (hp, cp) (List.mem_cons_self _ _))
    simp only [List.map_cons, List.nodup_cons] at hn
    have hins := insertPM_of_not_mem (m := acc) (k := tokenOf cp)
      (v := [PortBinding.mk "0.0.0.0" hp]) (hfresh (hp, cp) (List.mem_cons_self _ _))
    have hfresh₁ : ∀ q ∈ rest, tokenOf q.2 ∉
        (acc ++ [(tokenOf cp, [PortBinding.mk "0.0.0.0" hp])]).map Prod.fst := by
      intro q hq
      simp only [List.map_append, List.mem_append, List.map_cons, List.map_nil,
        List.mem_singleton]
      rintro (hmem | heq)
      · exact hfresh q (List.mem_cons_of_mem _ hq) hmem
      · exact hn.1 (heq ▸ List.mem_map_of_mem (fun p => tokenOf p.2) hq)
  -- the head token equals a tail token, contradicting nodup
    have := ih (acc ++ [(tokenOf cp, [PortBinding.mk "0.0.0.0" hp])])
      (fun q hq => hv q (List.mem_cons_of_mem _ hq)) hn.2 hfresh₁
    simp only [buildPortMap, htok, hins, this, List.append_assoc, List.singleton_append,
      List.map_cons]

/-- C5: a ports map holding a container-port string that is not a valid
port makes `CreateContainer` return the empty container ID together with
an error matching `ErrPortMap`, and no remote create call is issued: the
whole translation aborts with no partial application. -/
theorem createContainer_invalid_port (c : Client)
    (dockerImage containerName : String) (ports : List (String × String))
    (hbad : ∃ p ∈ ports, (NewPort "tcp" p.2).isOk = false) :
    (CreateContainer c dockerImage containerName ports).fst.fst = "" ∧
    (∃ err, (CreateContainer c dockerImage containerName ports).fst.snd = some err ∧
      errorIs err .ErrPortMap = true) ∧
    (CreateContainer c dockerImage containerName ports).snd = [] := by
  obtain ⟨e, he⟩ := buildPortMap_error_of_invalid ports [] hbad
  refine ⟨?_, ⟨.join (.base .ErrPortMap) (.ext e), ?_, by simp [errorIs]⟩, ?_⟩ <;>
    simp [CreateContainer, he]

theorem createContainer_invalid_port_witness :
    (CreateContainer presentClient "img" "web" [("8080", "abc")]).fst.fst = "" ∧
    (∃ err, (CreateContainer presentClient "img" "web" [("8080", "abc")]).fst.snd =
      some err ∧ errorIs err .ErrPortMap = true) ∧
    (CreateContainer presentClient "img" "web" [("8080", "abc")]).snd = [] :=
  createContainer_invalid_port presentClient "img" "web" [("8080", "abc")]
    ⟨("8080", "abc"), by decide, by decide⟩

/-- C6 counterexample: in `dupPorts` both host ports `"1"` and `"2"` map to
the valid container port `"80"`, yet the translated map holds no binding
from `"80/tcp"` to the host port of the entry `("1", "80")` — that entry's
binding was overwritten, so the translation does not produce a binding for
each entry of the map. -/
theorem portmap_duplicate_entry_cex :
    (∀ p ∈ dupPorts, (NewPort "tcp" p.2).isOk = true) ∧
    ("1", "80") ∈ dupPorts ∧
    NewPort "tcp" "80" = .ok "80/tcp" ∧
    buildPortMap dupPorts [] =
      .ok [("80/tcp", [PortBinding.mk "0.0.0.0" "2"])] ∧
    ("80/tcp", [PortBinding.mk "0.0.0.0" "1"]) ∉
      [("80/tcp", [PortBinding.mk "0.0.0.0" "2"])] := by decide

/-- C6 as amended: for every ports map whose container-port strings are all
valid and whose TCP port tokens are pairwise distinct, the translation
succeeds and is exactly the entry-wise map sending each entry to the
binding from its TCP-qualified container port to the single-element list
{0.0.0.0, host port}; in particular every entry yields its binding, every
binding list is single-element, and no container port occurs twice in the
output. -/
theorem createContainer_port_translation (ports : List (String × String))
    (hv : ∀ p ∈ ports, (NewPort "tcp" p.2).isOk = true)
    (hn : (ports.map fun p => tokenOf p.2).Nodup) :
    ∃ m, buildPortMap ports [] = .ok m ∧
      m = ports.map (fun p => (tokenOf p.2, [PortBinding.mk "0.0.0.0" p.1])) ∧
      (∀ p ∈ ports, ∀ tok, NewPort "tcp" p.2 = .ok tok →
        (tok, [PortBinding.mk "0.0.0.0" p.1]) ∈ m) ∧
      (∀ kv ∈ m, kv.2.length = 1) ∧
      (m.map Prod.fst).Nodup := by
  have hb := buildPortMap_fresh ports [] hv hn (by simp)
  rw [List.nil_append] at hb
  refine ⟨_, hb, rfl, ?_, ?_, ?_⟩
  · intro p hp tok htok
    have : tokenOf p.2 = tok := by simp [tokenOf, htok]
    rw [← this]
    exact List.mem_map_of_mem _ hp
  · intro kv hkv
    obtain ⟨p, _, rfl⟩ := List.mem_map.mp hkv
    rfl
  · rw [List.map_map]
    exact hn

theorem createContainer_port_translation_witness :
    ∃ m, buildPortMap [("7777", "5678"), ("8888", "80")] [] = .ok m ∧
      m = [("5678/tcp", [PortBinding.mk "0.0.0.0" "7777"]),
           ("80/tcp", [PortBinding.mk "0.0.0.0" "8888"])] := by
  obtain ⟨m, hok, heq, _⟩ := createContainer_port_translation
    [("7777", "5678"), ("8888", "80")] (by decide) (by decide)
  exact ⟨m, hok, by rw [heq]; decide⟩

theorem buildPortMap_all_valid :
    ∀ (ports : List (String × String)) (acc : PortMap),
    (∀ p ∈ ports, (NewPort "tcp" p.2).isOk = true) →
    ∃ m, buildPortMap ports acc = .ok m ∧
      ((acc.map Prod.fst).Nodup → (m.map Prod.fst).Nodup) ∧
      ((∀ kv ∈ acc, kv.2.length = 1) → (∀ kv ∈ m, kv.2.length = 1)) ∧
      (∀ p ∈ ports, tokenOf p.2 ∈ m.map Prod.fst) ∧
      (∀ k, k ∈ acc.map Prod.fst → k ∈ m.map Prod.fst) := by
  intro ports
  induction ports with
  | nil =>
    intro acc _
    exact ⟨acc, rfl, id, id, by simp, fun _ h => h⟩
  | cons p rest ih =>
    intro acc hv
    obtain ⟨hp, cp⟩ := p
    have htok := newPort_ok_of_isOk (hv (hp, cp) (List.mem_cons_self _ _))
    obtain ⟨m, hm, hnd, hlen, hks, hmono⟩ :=
      ih (insertPM acc (tokenOf cp) [PortBinding.mk "0.0.0.0" hp])
        (fun q hq => hv q (List.mem_cons_of_mem _ hq))
    refine ⟨m, by simp [buildPortMap, htok, hm], ?_, ?_, ?_, ?_⟩
    · intro hnodup
      exact hnd (insertPM_keys_nodup hnodup)
    · intro hl
      exact hlen (insertPM_values hl rfl)
    · intro q hq
      rcases List.mem_cons.mp hq with rfl | hq₁
      · exact hmono _ ((insertPM_mem_key _ _ _ _).mpr (Or.inl rfl))
      · exact hks q hq₁
    · intro k hk
      exact hmono k ((insertPM_mem_key _ _ _ _).mpr (Or.inr hk))

/-- C10: a ports map in which two distinct host-port keys map to the same
valid container-port string does not make the port translation fail: the
output holds exactly one binding list for that container port, that list
is a single binding, and at least one of the two host-port bindings is
absent from the output — silently discarded. -/
theorem createContainer_duplicate_container_port (ports : List (String × String))
    (h1 h2 cp tok : String)
    (hv : ∀ p ∈ ports, (NewPort "tcp" p.2).isOk = true)
    (hm1 : (h1, cp) ∈ ports) (_hm2 : (h2, cp) ∈ ports) (hne : h1 ≠ h2)
    (htok : NewPort "tcp" cp = .ok tok) :
    ∃ m, buildPortMap ports [] = .ok m ∧
      (m.map Prod.fst).count tok = 1 ∧
      (∀ kv ∈ m, kv.2.length = 1) ∧
      ((tok, [PortBinding.mk "0.0.0.0" h1]) ∉ m ∨
        (tok, [PortBinding.mk "0.0.0.0" h2]) ∉ m) := by
  obtain ⟨m, hm, hnd, hlen, hks, _⟩ := buildPortMap_all_valid ports [] hv
  have hnodup : (m.map Prod.fst).Nodup := hnd (by simp)
  have hlen1 : ∀ kv ∈ m, kv.2.length = 1 := hlen (by simp)
  have htokOf : tokenOf cp = tok := by simp [tokenOf, htok]
  have hkey : tok ∈ m.map Prod.fst := htokOf ▸ hks (h1, cp) hm1
  refine ⟨m, hm, List.count_eq_one_of_mem hnodup hkey, hlen1, ?_⟩
  by_contra hcon
  push_neg at hcon
  obtain ⟨ha, hb⟩ := hcon
  have heq := List.inj_on_of_nodup_map hnodup ha hb rfl
  simp only [Prod.mk.injEq, List.cons.injEq, PortBinding.mk.injEq] at heq
  exact hne heq.2.1.2

theorem createContainer_duplicate_container_port_witness :
    ∃ m, buildPortMap dupPorts [] = .ok m ∧
      (m.map Prod.fst).count "80/tcp" = 1 ∧
      (∀ kv ∈ m, kv.2.length = 1) ∧
      (("80/tcp", [PortBinding.mk "0.0.0.0" "1"]) ∉ m ∨
        ("80/tcp", [PortBinding.mk "0.0.0.0" "2"]) ∉ m) :=
  createContainer_duplicate_container_port dupPorts "1" "2" "80" "80/tcp"
    (by decide) (by decide) (by decide) (by decide) (by decide)

theorem pullImage_trace (c : Client) (r : String) :
    (PullImage c r).snd = [.listImages r dockerImageVerifyTimeout] ∨
    (PullImage c r).snd = [.listImages r dockerImageVerifyTimeout,
      .pullImage r dockerPullTimeout] := by
  have ht := verifyHaveImage_trace c r
  cases hv : (VerifyHaveImage c r).fst with
  | none =>
    left
    rw [pullImage_of_verify_ok hv]
    exact ht
  | some v =>
    right
    cases hp : c.imagePull r with
    | error e =>
      rw [pullImage_of_verify_err_pull_err hv hp]
      simp [ht]
    | ok s =>
      cases hr : s.readErr with
      | none =>
        rw [pullImage_of_verify_err_pull_clean hv hp hr]
        simp [ht]
      | some e =>
        rw [pullImage_of_verify_err_drain_err hv hp hr]
        simp [ht]

/-- C9: every operation owns its own fixed deadline — connect 10s, verify
10s, pull 60s, create 10s, start 10s, remove-container 10s, remove-image
10s — and no deadline is shared or inherited across a call chain: every
adapter call in every operation's trace carries that operation's own
budget; in particular the image-listing call that `PullImage` makes
through `VerifyHaveImage` carries the 10-second verify budget, not
`PullImage`'s 60-second pull budget. -/
theorem operation_deadlines :
    dockerConnectTimeout = 10000 ∧ dockerImageVerifyTimeout = 10000 ∧
    dockerPullTimeout = 60000 ∧ dockerCreateContainerTimeout = 10000 ∧
    dockerStartContainerTimeout = 10000 ∧ dockerRemoveContainerTimeout = 10000 ∧
    dockerRemoveImageTimeout = 10000 ∧
    dockerImageVerifyTimeout ≠ dockerPullTimeout ∧
    (∀ mk, (CreateClient mk).snd = [] ∨
      (CreateClient mk).snd = [.ping dockerConnectTimeout]) ∧
    (∀ c r, (VerifyHaveImage c r).snd = [.listImages r dockerImageVerifyTimeout]) ∧
    (∀ c r, (PullImage c r).snd = [.listImages r dockerImageVerifyTimeout] ∨
      (PullImage c r).snd = [.listImages r dockerImageVerifyTimeout,
        .pullImage r dockerPullTimeout]) ∧
    (∀ c i n ports, (CreateContainer c i n ports).snd = [] ∨
      ∃ pm, (CreateContainer c i n ports).snd =
        [.createContainer i n pm dockerCreateContainerTimeout]) ∧
    (∀ c cid, ∃ m, (StartContainer c cid).snd =
      .startContainer cid dockerStartContainerTimeout ::
        List.replicate m (.inspectContainer cid dockerStartContainerTimeout)) ∧
    (∀ c cid, (RemoveContainer c cid).snd =
      [.removeContainer cid true true dockerRemoveContainerTimeout]) ∧
    (∀ c r, (RemoveImage c r).snd = [.removeImage r dockerRemoveImageTimeout]) := by
  refine ⟨rfl, rfl, rfl, rfl, rfl, rfl, rfl, by decide, ?_, verifyHaveImage_trace,
    pullImage_trace, ?_, ?_, fun c cid => rfl, fun c r => rfl⟩
  · intro mk
    cases mk with
    | error e => left; rfl
    | ok cl =>
      right
      cases hp : cl.ping with
      | error e => simp [CreateClient, hp]
      | ok u => simp [CreateClient, hp]
  · intro c i n ports
    cases hb : buildPortMap ports [] with
    | error e => left; simp [CreateContainer, hb]
    | ok pm =>
      right
      refine ⟨pm, ?_⟩
      cases hc : c.containerCreate i n pm with
      | error e => simp [CreateContainer, hb, hc]
      | ok id => simp [CreateContainer, hb, hc]
  · intro c cid
    cases hs : c.containerStart cid with
    | error e => exact ⟨0, by simp [StartContainer, hs]⟩
    | ok u =>
      obtain ⟨m, hm⟩ := pollLoop_trace_replicate
        (fun k => c.containerInspect k cid) cid startMaxTicks 0
      exact ⟨m, by simp [StartContainer, hs, hm]⟩

end Udock
